import Mathlib

/-!
Verification of the relevance scoring subsystem of the event-finder
repository: the pure evaluators of `backend/src/relevance.ts` and the inline
relevance-factor computation of the `/api/events/search` transform in
`backend/src/server.ts`.

Modelling conventions for the JavaScript source:
these are modelled as `Option String`; the truthiness test `!s` on such an
argument holds exactly when the value is `undefined` (`none`) or the empty
string. `String.prototype.toLowerCase` is modelled character-wise by
`jsToLower`, `String.prototype.includes` by `jsIncludes`, and the
`x || ''` fallback applied to an optional string by `jsOrEmpty`.
Positions are JavaScript numbers used as integers and are modelled by `Int`.
-/

namespace EventFinder

/-- Truthiness of an optional JavaScript string argument: `!s` holds exactly
when the value is `undefined` (`none`) or the empty string. -/
def strFalsy : Option String → Bool
  | none => true
  | some s => s.data.isEmpty

/-- Character-wise lowercasing, modelling `String.prototype.toLowerCase`. -/
def jsToLower (s : String) : String :=
  ⟨s.data.map Char.toLower⟩

/-- Decides whether `pat` occurs at the head of `s`. -/
def charsLead : List Char → List Char → Bool
  | [], _ => true
  | _ :: _, [] => false
  | p :: ps, c :: cs => p == c && charsLead ps cs

/-- Decides whether `pat` occurs contiguously anywhere inside `s`. -/
def charsContain (pat : List Char) : List Char → Bool
  | [] => charsLead pat []
  | c :: cs => charsLead pat (c :: cs) || charsContain pat cs

/-- Model of `s.includes(pat)` on JavaScript strings: substring containment. -/
def jsIncludes (s pat : String) : Bool :=
  charsContain pat.data s.data

/-- Model of the expression `x || ''` applied to an optional JavaScript
string: `undefined` and the empty string fall back to the empty string. -/
def jsOrEmpty : Option String → String
  | none => ""
  | some s => if s.data.isEmpty then "" else s

/-- The `RelevanceFactors` record of `backend/src/relevance.ts`: a 1-based
result position together with three tri-state match factors. -/
structure RelevanceFactors where
  position : Int
  hasKeywordMatch : Option Bool
  matchesClassification : Option Bool
  matchesCity : Option Bool
  deriving DecidableEq

/-- The `EventData` view of a candidate event (`backend/src/relevance.ts`):
a required name and optional city and classification strings. -/
structure EventData where
  name : String
  city : Option String
  classification : Option String
  deriving DecidableEq

/-- The `SearchCriteria` record of `backend/src/relevance.ts`: three optional
search-criterion strings. -/
structure SearchCriteria where
  keyword : Option String
  city : Option String
  classificationName : Option String
  deriving DecidableEq

/-- `hasKeywordMatch` from `backend/src/relevance.ts`: `null` when no keyword
was supplied, `false` when the event name is empty, otherwise
case-insensitive substring containment of the keyword in the event name. -/
def hasKeywordMatch (eventName : String) (keyword : Option String) : Option Bool :=
  match keyword with
  | none => none
  | some k =>
    if k.data.isEmpty then none
    else if eventName.data.isEmpty then some false
    else some (jsIncludes (jsToLower eventName) (jsToLower k))

/-- `matchesClassification` from `backend/src/relevance.ts`: `null` when no
search classification was supplied, `false` when the event classification is
absent or empty, otherwise case-insensitive string equality. -/
def matchesClassification (eventClassification searchClassification : Option String) : Option Bool :=
  match searchClassification with
  | none => none
  | some sc =>
    if sc.data.isEmpty then none
    else
      match eventClassification with
      | none => some false
      | some ec =>
        if ec.data.isEmpty then some false
        else some (jsToLower ec == jsToLower sc)

/-- `matchesCity` from `backend/src/relevance.ts`: `null` when no search city
was supplied, `false` when the event city is absent or empty, otherwise
bidirectional case-insensitive substring containment. -/
def matchesCity (eventCity searchCity : Option String) : Option Bool :=
  match searchCity with
  | none => none
  | some sc =>
    if sc.data.isEmpty then none
    else
      match eventCity with
      | none => some false
      | some ec =>
        if ec.data.isEmpty then some false
        else
          some (jsIncludes (jsToLower ec) (jsToLower sc)
            || jsIncludes (jsToLower sc) (jsToLower ec))

/-- `calculateRelevanceFactors` from `backend/src/relevance.ts`: composes the
three evaluators and copies the position through unchanged. -/
def calculateRelevanceFactors (event : EventData) (searchCriteria : SearchCriteria) (position : Int) : RelevanceFactors :=
  { position := position
    hasKeywordMatch := hasKeywordMatch event.name searchCriteria.keyword
    matchesClassification := matchesClassification event.classification searchCriteria.classificationName
    matchesCity := matchesCity event.city searchCriteria.city }

/-- `calculateRelevanceScore` from `backend/src/relevance.ts`: base 20, a
position bonus of `(10 - position) * 2` whenever `position <= 10`, bonuses of
30/25/25 for the factors that are literally `true`, capped at 100. -/
def calculateRelevanceScore (factors : RelevanceFactors) : Int :=
  let score : Int := 20
  let score := if factors.position ≤ 10 then score + (10 - factors.position) * 2 else score
  let score := if factors.hasKeywordMatch = some true then score + 30 else score
  let score := if factors.matchesClassification = some true then score + 25 else score
  let score := if factors.matchesCity = some true then score + 25 else score
  min score 100

/-- The fields of an upstream Ticketmaster record that the
`/api/events/search` transform in `backend/src/server.ts` reads when
computing relevance factors: `event.name`,
`event._embedded?.venues?.[0]?.city?.name` and
`event.classifications?.[0]?.segment?.name`. -/
structure TMEvent where
  name : String
  venueCity : Option String
  segmentName : Option String
  deriving DecidableEq

/-- The inline `hasKeywordMatch` expression of the transform in
`backend/src/server.ts`:
`keyword ? event.name.toLowerCase().includes(keyword.toLowerCase()) : null`. -/
def inlineHasKeywordMatch (name : String) (keyword : Option String) : Option Bool :=
  match keyword with
  | none => none
  | some k =>
    if k.data.isEmpty then none
    else some (jsIncludes (jsToLower name) (jsToLower k))

/-- The inline `matchesClassification` expression of the transform in
`backend/src/server.ts`: an optional-chained lowercase of the first segment
name compared with `===` against the lowercased criterion, so an absent
segment name compares unequal. -/
def inlineMatchesClassification (segmentName classificationName : Option String) : Option Bool :=
  match classificationName with
  | none => none
  | some cn =>
    if cn.data.isEmpty then none
    else
      some (match segmentName with
        | none => false
        | some s => jsToLower s == jsToLower cn)

/-- The inline `matchesCity` expression of the transform in
`backend/src/server.ts`:
`venueCity?.toLowerCase().includes(cityLower) || cityLower.includes(venueCity?.toLowerCase() || '')`.
When the venue city is absent the left disjunct is `undefined` (falsy) and
the right disjunct asks whether the search city contains the empty string. -/
def inlineMatchesCity (venueCity city : Option String) : Option Bool :=
  match city with
  | none => none
  | some c =>
    if c.data.isEmpty then none
    else
      some (match venueCity.map jsToLower with
        | none => jsIncludes (jsToLower c) (jsOrEmpty none)
        | some el => jsIncludes el (jsToLower c) || jsIncludes (jsToLower c) (jsOrEmpty (some el)))

/-- The relevance-factors object the `/api/events/search` transform attaches
to the record at 0-based index `index`. -/
def transformRelevanceFactors (keyword city classificationName : Option String) (ev : TMEvent) (index : Nat) : RelevanceFactors :=
  { position := (index : Int) + 1
    hasKeywordMatch := inlineHasKeywordMatch ev.name keyword
    matchesClassification := inlineMatchesClassification ev.segmentName classificationName
    matchesCity := inlineMatchesCity ev.venueCity city }

/-- The transform's map over the upstream record list starting at 0-based
index `i`, restricted to the relevance-factors field it attaches. -/
def transformEventsFrom (keyword city classificationName : Option String) : Nat → List TMEvent → List RelevanceFactors
  | _, [] => []
  | i, e :: es =>
    transformRelevanceFactors keyword city classificationName e i
      :: transformEventsFrom keyword city classificationName (i + 1) es

/-- The relevance-factors objects attached by the `/api/events/search`
transform, one per upstream record, in order. -/
def transformEvents (keyword city classificationName : Option String) (events : List TMEvent) : List RelevanceFactors :=
  transformEventsFrom keyword city classificationName 0 events

/-- The `EventData` view the transform's enriched record exposes for an
upstream record: name, venue city and first classification segment name. -/
def eventView (ev : TMEvent) : EventData :=
  { name := ev.name, city := ev.venueCity, classification := ev.segmentName }

/-- Relation identifying a tri-state factor value with the value obtained by
replacing `null` with `false` or vice versa, and with itself. -/
def nullFalseSame (a b : Option Bool) : Prop :=
  a = b ∨ (a = none ∧ b = some false) ∨ (a = some false ∧ b = none)

theorem charsLead_iff (pat s : List Char) : charsLead pat s = true ↔ ∃ r, s = pat ++ r := by
  induction pat generalizing s with
  | nil => simp [charsLead]
  | cons p ps ih =>
    cases s with
    | nil => simp [charsLead]
    | cons c cs =>
      simp only [charsLead, Bool.and_eq_true, beq_iff_eq, ih, List.cons_append]
      constructor
      · rintro ⟨rfl, r, rfl⟩
        exact ⟨r, rfl⟩
      · rintro ⟨r, h⟩
        rw [List.cons.injEq] at h
        exact ⟨h.1.symm, r, h.2⟩

theorem charsContain_iff (pat s : List Char) : charsContain pat s = true ↔ ∃ l r, s = l ++ pat ++ r := by
  induction s with
  | nil =>
    simp only [charsContain, charsLead_iff]
    constructor
    · rintro ⟨r, h⟩
      exact ⟨[], r, by simpa using h⟩
    · rintro ⟨l, r, h⟩
      obtain ⟨h1, h2⟩ := List.append_eq_nil.mp h.symm
      obtain ⟨h3, h4⟩ := List.append_eq_nil.mp h1
      exact ⟨[], by simp [h4]⟩
  | cons c cs ih =>
    simp only [charsContain, Bool.or_eq_true, charsLead_iff, ih]
    constructor
    · rintro (⟨r, h⟩ | ⟨l, r, h⟩)
      · exact ⟨[], r, by simpa using h⟩
      · exact ⟨c :: l, r, by simp [h]⟩
    · rintro ⟨l, r, h⟩
      cases l with
      | nil => exact Or.inl ⟨r, by simpa using h⟩
      | cons x xs =>
        rw [List.cons_append, List.cons_append, List.cons.injEq] at h
        exact Or.inr ⟨xs, r, h.2⟩

theorem jsIncludes_iff (s pat : String) : jsIncludes s pat = true ↔ ∃ l r, s.data = l ++ pat.data ++ r :=
  charsContain_iff pat.data s.data

theorem charsContain_nil_pat (s : List Char) : charsContain [] s = true := by
  cases s <;> simp [charsContain, charsLead]

theorem jsIncludes_empty_pat (s : String) : jsIncludes s "" = true :=
  charsContain_nil_pat s.data

theorem jsOrEmpty_some (t : String) : jsOrEmpty (some t) = t := by
  simp only [jsOrEmpty]
  split_ifs with h
  · have h' : t.data = [] := by simpa using h
    cases t
    simp only [] at h'
    subst h'
    rfl
  · rfl

theorem jsToLower_data (s : String) : (jsToLower s).data = s.data.map Char.toLower := rfl

theorem score_closed_form (f : RelevanceFactors) :
    calculateRelevanceScore f =
      min (20 + (if f.position ≤ 10 then (10 - f.position) * 2 else 0)
        + (if f.hasKeywordMatch = some true then 30 else 0)
        + (if f.matchesClassification = some true then 25 else 0)
        + (if f.matchesCity = some true then 25 else 0)) 100 := by
  simp only [calculateRelevanceScore]
  split_ifs <;> omega

theorem nullFalseSame_true_iff {a b : Option Bool} (h : nullFalseSame a b) :
    (a = some true) = (b = some true) := by
  rcases h with rfl | ⟨rfl, rfl⟩ | ⟨rfl, rfl⟩ <;> simp

theorem inlineHasKeywordMatch_eq (name : String) (keyword : Option String) :
    inlineHasKeywordMatch name keyword = hasKeywordMatch name keyword := by
  cases keyword with
  | none => rfl
  | some k =>
    simp only [inlineHasKeywordMatch, hasKeywordMatch]
    by_cases hk : k.data.isEmpty
    · simp [hk]
    · by_cases hn : name.data.isEmpty
      · have hn' : name.data = [] := by simpa using hn
        have hk' : k.data ≠ [] := by simpa using hk
        obtain ⟨c, cs, hc⟩ : ∃ c cs, k.data = c :: cs := by
          cases hkd : k.data with
          | nil => exact absurd hkd hk'
          | cons c cs => exact ⟨c, cs, rfl⟩
        simp [hk, hn, jsIncludes, jsToLower, hn', hc, charsContain, charsLead]
      · simp [hk, hn]

theorem inlineMatchesClassification_eq (segmentName classificationName : Option String) :
    inlineMatchesClassification segmentName classificationName
      = matchesClassification segmentName classificationName := by
  cases classificationName with
  | none => rfl
  | some c =>
    simp only [inlineMatchesClassification, matchesClassification]
    by_cases hc : c.data.isEmpty
    · simp [hc]
    · cases segmentName with
      | none => simp [hc]
      | some s =>
        by_cases hs : s.data.isEmpty
        · have hs' : s.data = [] := by simpa using hs
          have hc' : c.data ≠ [] := by simpa using hc
          simp only [hc, hs, Bool.false_eq_true, if_false, if_true, Option.some.injEq]
          rw [beq_eq_false_iff_ne]
          intro he
          have hd : s.data.map Char.toLower = c.data.map Char.toLower := congrArg String.data he
          rw [hs'] at hd
          exact hc' (by simpa using hd.symm)
        · simp [hc, hs]

theorem inlineMatchesCity_eq_of (venueCity city : Option String)
    (h : strFalsy city = true ∨ ∃ s, venueCity = some s ∧ s.data.isEmpty = false) :
    inlineMatchesCity venueCity city = matchesCity venueCity city := by
  cases city with
  | none => rfl
  | some c =>
    by_cases hc : c.data.isEmpty
    · simp [inlineMatchesCity, matchesCity, hc]
    · rcases h with h | ⟨s, rfl, hs⟩
      · exact absurd (by simpa [strFalsy] using h) hc
      · have hsl : (jsToLower s).data.isEmpty = false := by
          have hne : s.data ≠ [] := by simpa using hs
          obtain ⟨d, ds, hd⟩ : ∃ d ds, s.data = d :: ds := by
            cases hd : s.data with
            | nil => exact absurd hd hne
            | cons d ds => exact ⟨d, ds, rfl⟩
          simp [jsToLower_data, hd]
        simp [inlineMatchesCity, matchesCity, hc, hs, jsOrEmpty_some]

theorem transformEventsFrom_getElem (keyword city classificationName : Option String)
    (events : List TMEvent) (n i : Nat) (hi : i < events.length) :
    (transformEventsFrom keyword city classificationName n events)[i]? =
      some (transformRelevanceFactors keyword city classificationName events[i] (n + i)) := by
  induction events generalizing n i with
  | nil => simp at hi
  | cons e es ih =>
    cases i with
    | zero => simp [transformEventsFrom]
    | succ j =>
      have hj : j < es.length := by simpa using hi
      have harith : n + 1 + j = n + (j + 1) := by omega
      simp only [transformEventsFrom, List.getElem?_cons_succ, List.getElem_cons_succ,
        ih (n + 1) j hj, harith]

/-- C4: `matchesCity` returns `null` iff the search city is absent or empty;
otherwise it returns `false` if the event city is absent or empty; otherwise
it returns `true` iff, after lowercasing both strings, either string contains
the other as a substring. In particular
`matchesCity "Boston" "Boston, MA"` and `matchesCity "Boston, MA" "Boston"`
are `true` and `matchesCity "Boston" "Chicago"` is `false`. -/
theorem matchesCity_contract (eventCity searchCity : Option String) :
    (matchesCity eventCity searchCity = none ↔ strFalsy searchCity = true)
    ∧ (strFalsy searchCity = false → strFalsy eventCity = true →
        matchesCity eventCity searchCity = some false)
    ∧ (∀ ec sc : String, eventCity = some ec → searchCity = some sc →
        ec.data.isEmpty = false → sc.data.isEmpty = false →
        (matchesCity eventCity searchCity = some true ↔
          (∃ l r, (jsToLower ec).data = l ++ (jsToLower sc).data ++ r)
          ∨ (∃ l r, (jsToLower sc).data = l ++ (jsToLower ec).data ++ r)))
    ∧ matchesCity (some "Boston") (some "Boston, MA") = some true
    ∧ matchesCity (some "Boston, MA") (some "Boston") = some true
    ∧ matchesCity (some "Boston") (some "Chicago") = some false := by
  refine ⟨?_, ?_, ?_, by decide, by decide, by decide⟩
  · cases searchCity with
    | none => simp [matchesCity, strFalsy]
    | some sc =>
      by_cases h : sc.data.isEmpty
      · simp [matchesCity, strFalsy, h]
      · cases eventCity with
        | none => simp [matchesCity, strFalsy, h]
        | some ec =>
          by_cases he : ec.data.isEmpty <;> simp [matchesCity, strFalsy, h, he]
  · intro h1 h2
    cases searchCity with
    | none => simp [strFalsy] at h1
    | some sc =>
      simp only [strFalsy] at h1
      cases eventCity with
      | none => simp [matchesCity, h1]
      | some ec =>
        simp only [strFalsy] at h2
        simp [matchesCity, h1, h2]
  · rintro ec sc rfl rfl hec hsc
    simp [matchesCity, hec, hsc, jsIncludes_iff]

/-- Witness for C4: applies `matchesCity_contract` at a concrete input,
discharging the hypotheses of its second conjunct. -/
theorem matchesCity_contract_witness :
    strFalsy (some "Boston") = false ∧ strFalsy none = true
    ∧ matchesCity none (some "Boston") = some false :=
  ⟨by decide, by decide,
    (matchesCity_contract none (some "Boston")).2.1 (by decide) (by decide)⟩

/-- C5: `matchesClassification` returns `null` iff the search classification
is absent or empty; otherwise it returns `false` if the event classification
is absent or empty; otherwise it returns `true` iff the two strings are equal
after lowercasing (full equality, not substring containment), so
`matchesClassification "Arts & Theatre" "Arts"` is `false`. -/
theorem matchesClassification_contract (eventClassification searchClassification : Option String) :
    (matchesClassification eventClassification searchClassification = none
        ↔ strFalsy searchClassification = true)
    ∧ (strFalsy searchClassification = false → strFalsy eventClassification = true →
        matchesClassification eventClassification searchClassification = some false)
    ∧ (∀ ec sc : String, eventClassification = some ec → searchClassification = some sc →
        ec.data.isEmpty = false → sc.data.isEmpty = false →
        (matchesClassification eventClassification searchClassification = some true ↔
          jsToLower ec = jsToLower sc))
    ∧ matchesClassification (some "Arts & Theatre") (some "Arts") = some false := by
  refine ⟨?_, ?_, ?_, by decide⟩
  · cases searchClassification with
    | none => simp [matchesClassification, strFalsy]
    | some sc =>
      by_cases h : sc.data.isEmpty
      · simp [matchesClassification, strFalsy, h]
      · cases eventClassification with
        | none => simp [matchesClassification, strFalsy, h]
        | some ec =>
          by_cases he : ec.data.isEmpty <;> simp [matchesClassification, strFalsy, h, he]
  · intro h1 h2
    cases searchClassification with
    | none => simp [strFalsy] at h1
    | some sc =>
      simp only [strFalsy] at h1
      cases eventClassification with
      | none => simp [matchesClassification, h1]
      | some ec =>
        simp only [strFalsy] at h2
        simp [matchesClassification, h1, h2]
  · rintro ec sc rfl rfl hec hsc
    simp [matchesClassification, hec, hsc]

/-- Witness for C5: applies `matchesClassification_contract` at a concrete
input, discharging the hypotheses of its third conjunct. -/
theorem matchesClassification_contract_witness :
    ("Music".data.isEmpty = false) ∧ ("music".data.isEmpty = false)
    ∧ (matchesClassification (some "Music") (some "music") = some true ↔
        jsToLower "Music" = jsToLower "music") :=
  ⟨by decide, by decide,
    (matchesClassification_contract (some "Music") (some "music")).2.2.1 "Music" "music"
      rfl rfl (by decide) (by decide)⟩

/-- C6: `hasKeywordMatch` returns `null` iff the keyword is absent or empty;
otherwise it returns `false` if the event name is empty; otherwise it returns
`true` iff the lowercased event name contains the lowercased keyword as a
substring (one-directional). In particular
`hasKeywordMatch "Taylor Swift Concert" "swift"` is `true` and
`hasKeywordMatch "" "concert"` is `false`; the function is total, so it
never throws. -/
theorem hasKeywordMatch_contract (eventName : String) (keyword : Option String) :
    (hasKeywordMatch eventName keyword = none ↔ strFalsy keyword = true)
    ∧ (∀ k : String, keyword = some k → k.data.isEmpty = false →
        eventName.data.isEmpty = true → hasKeywordMatch eventName keyword = some false)
    ∧ (∀ k : String, keyword = some k → k.data.isEmpty = false →
        eventName.data.isEmpty = false →
        (hasKeywordMatch eventName keyword = some true ↔
          ∃ l r, (jsToLower eventName).data = l ++ (jsToLower k).data ++ r))
    ∧ hasKeywordMatch "Taylor Swift Concert" (some "swift") = some true
    ∧ hasKeywordMatch "" (some "concert") = some false := by
  refine ⟨?_, ?_, ?_, by decide, by decide⟩
  · cases keyword with
    | none => simp [hasKeywordMatch, strFalsy]
    | some k =>
      by_cases h : k.data.isEmpty
      · simp [hasKeywordMatch, strFalsy, h]
      · by_cases hn : eventName.data.isEmpty <;> simp [hasKeywordMatch, strFalsy, h, hn]
  · rintro k rfl hk hn
    simp [hasKeywordMatch, hk, hn]
  · rintro k rfl hk hn
    simp [hasKeywordMatch, hk, hn, jsIncludes_iff]

/-- Witness for C6: applies `hasKeywordMatch_contract` at a concrete input,
discharging the hypotheses of its second conjunct. -/
theorem hasKeywordMatch_contract_witness :
    ("concert".data.isEmpty = false) ∧ ("".data.isEmpty = true)
    ∧ hasKeywordMatch "" (some "concert") = some false :=
  ⟨by decide, by decide,
    (hasKeywordMatch_contract "" (some "concert")).2.1 "concert" rfl (by decide) (by decide)⟩

/-- C1: for every factors record with position at least 1, the score is
`min(20 + positionBonus + keywordBonus + classificationBonus + cityBonus, 100)`
with the bonuses of the claim; position 1 with all three factors true gives
100, and any position at least 10 with no factor literally true gives 20. -/
theorem score_formula_positive_position (p : Int) (hk mc mcy : Option Bool) (_hp : 1 ≤ p) :
    calculateRelevanceScore ⟨p, hk, mc, mcy⟩ =
      min (20 + (if p ≤ 10 then (10 - p) * 2 else 0)
        + (if hk = some true then 30 else 0)
        + (if mc = some true then 25 else 0)
        + (if mcy = some true then 25 else 0)) 100
    ∧ calculateRelevanceScore ⟨1, some true, some true, some true⟩ = 100
    ∧ (10 ≤ p → hk ≠ some true → mc ≠ some true → mcy ≠ some true →
        calculateRelevanceScore ⟨p, hk, mc, mcy⟩ = 20) := by
  refine ⟨score_closed_form _, by decide, ?_⟩
  intro h10 h1 h2 h3
  rw [score_closed_form]
  simp only [if_neg h1, if_neg h2, if_neg h3]
  split_ifs with hle <;> omega

/-- Witness for C1: applies `score_formula_positive_position` at position 1
with all factors true, discharging the position hypothesis. -/
theorem score_formula_positive_position_witness :
    (1 : Int) ≤ 1 ∧ calculateRelevanceScore ⟨1, some true, some true, some true⟩ = 100 :=
  ⟨by decide,
    (score_formula_positive_position 1 (some true) (some true) (some true) (by decide)).2.1⟩

/-- Counterexample for C2: position 0 is accepted, but its position bonus is
`(10 - 0) * 2 = 20`, not 0, so the score at position 0 (40) differs from the
score at position 11 (20) with the same all-`null` factors. -/
theorem position_bonus_nonpositive_counterexample :
    calculateRelevanceScore ⟨0, none, none, none⟩ = 40
    ∧ calculateRelevanceScore ⟨11, none, none, none⟩ = 20
    ∧ calculateRelevanceScore ⟨0, none, none, none⟩
        ≠ calculateRelevanceScore ⟨11, none, none, none⟩ := by
  decide

/-- C2 (amended): for every position `p > 10` the position bonus contributes
exactly 0 and the score equals the score at position 11 with the same
factors; positions `p ≤ 0` are accepted without error but receive the bonus
`(10 - p) * 2`, which is positive, rather than 0. -/
theorem position_bonus_out_of_range_amended (p : Int) (hk mc mcy : Option Bool) (hp : 10 < p) :
    calculateRelevanceScore ⟨p, hk, mc, mcy⟩ = calculateRelevanceScore ⟨11, hk, mc, mcy⟩
    ∧ ∀ q : Int, q ≤ 0 →
        0 < (10 - q) * 2
        ∧ calculateRelevanceScore ⟨q, hk, mc, mcy⟩ =
            min (20 + (10 - q) * 2
              + (if hk = some true then 30 else 0)
              + (if mc = some true then 25 else 0)
              + (if mcy = some true then 25 else 0)) 100 := by
  constructor
  · simp only [score_closed_form]
    split_ifs <;> omega
  · intro q hq
    refine ⟨by omega, ?_⟩
    rw [score_closed_form]
    have hq10 : q ≤ 10 := by omega
    simp only [if_pos hq10]

/-- Witness for C2 (amended): applies `position_bonus_out_of_range_amended`
at position 12 and inner position 0, discharging both hypotheses. -/
theorem position_bonus_out_of_range_amended_witness :
    calculateRelevanceScore ⟨12, none, none, none⟩ = calculateRelevanceScore ⟨11, none, none, none⟩
    ∧ 0 < ((10 : Int) - 0) * 2
    ∧ calculateRelevanceScore ⟨0, none, none, none⟩ =
        min (20 + ((10 : Int) - 0) * 2
          + (if (none : Option Bool) = some true then 30 else 0)
          + (if (none : Option Bool) = some true then 25 else 0)
          + (if (none : Option Bool) = some true then 25 else 0)) 100 :=
  ⟨(position_bonus_out_of_range_amended 12 none none none (by decide)).1,
    ((position_bonus_out_of_range_amended 12 none none none (by decide)).2 0 (by decide)).1,
    ((position_bonus_out_of_range_amended 12 none none none (by decide)).2 0 (by decide)).2⟩

/-- C7: for every factors record, also at positions at most 0 or above 10,
the score lies in `[20, 100]`, and setting any single factor to literally
`true` while holding the position and the other factors fixed never
decreases the score. -/
theorem score_bounds_and_monotone (p : Int) (hk mc mcy : Option Bool) :
    20 ≤ calculateRelevanceScore ⟨p, hk, mc, mcy⟩
    ∧ calculateRelevanceScore ⟨p, hk, mc, mcy⟩ ≤ 100
    ∧ calculateRelevanceScore ⟨p, hk, mc, mcy⟩ ≤ calculateRelevanceScore ⟨p, some true, mc, mcy⟩
    ∧ calculateRelevanceScore ⟨p, hk, mc, mcy⟩ ≤ calculateRelevanceScore ⟨p, hk, some true, mcy⟩
    ∧ calculateRelevanceScore ⟨p, hk, mc, mcy⟩ ≤ calculateRelevanceScore ⟨p, hk, mc, some true⟩ := by
  simp only [score_closed_form]
  refine ⟨?_, ?_, ?_, ?_, ?_⟩ <;> split_ifs <;> simp_all <;> omega

/-- C8: the score is unchanged when any subset of factor fields is replaced
by `false` in place of `null` or vice versa: only a field that is literally
`true` triggers a bonus. -/
theorem score_null_false_indistinguishable (f g : RelevanceFactors)
    (hpos : f.position = g.position)
    (h1 : nullFalseSame f.hasKeywordMatch g.hasKeywordMatch)
    (h2 : nullFalseSame f.matchesClassification g.matchesClassification)
    (h3 : nullFalseSame f.matchesCity g.matchesCity) :
    calculateRelevanceScore f = calculateRelevanceScore g := by
  simp only [score_closed_form, hpos, nullFalseSame_true_iff h1, nullFalseSame_true_iff h2,
    nullFalseSame_true_iff h3]

/-- Witness for C8: applies `score_null_false_indistinguishable` to a record
with `null` fields and the record with those fields replaced by `false`. -/
theorem score_null_false_indistinguishable_witness :
    calculateRelevanceScore ⟨7, none, some false, some true⟩
      = calculateRelevanceScore ⟨7, some false, none, some true⟩ :=
  score_null_false_indistinguishable ⟨7, none, some false, some true⟩
    ⟨7, some false, none, some true⟩ rfl (Or.inr (Or.inl ⟨rfl, rfl⟩))
    (Or.inr (Or.inr ⟨rfl, rfl⟩)) (Or.inl rfl)

/-- C9: `calculateRelevanceFactors` copies the position through unchanged and
fills each factor field with the direct call of the corresponding evaluator
on the matching sub-fields. -/
theorem factor_aggregator_fields (event : EventData) (criteria : SearchCriteria) (p : Int) :
    (calculateRelevanceFactors event criteria p).position = p
    ∧ (calculateRelevanceFactors event criteria p).hasKeywordMatch
        = hasKeywordMatch event.name criteria.keyword
    ∧ (calculateRelevanceFactors event criteria p).matchesClassification
        = matchesClassification event.classification criteria.classificationName
    ∧ (calculateRelevanceFactors event criteria p).matchesCity
        = matchesCity event.city criteria.city :=
  ⟨rfl, rfl, rfl, rfl⟩

/-- Counterexample for C3: for an upstream record with no venue city and a
non-empty city criterion, the transform attaches `matchesCity = true` while
`calculateRelevanceFactors` on the extracted view yields
`matchesCity = false`, so the attached factors differ from the core's. -/
theorem transform_vs_core_counterexample :
    transformEvents none (some "Boston") none [⟨"Showcase", none, none⟩]
      ≠ [calculateRelevanceFactors (eventView ⟨"Showcase", none, none⟩)
          ⟨none, some "Boston", none⟩ 1]
    ∧ (transformEvents none (some "Boston") none [⟨"Showcase", none, none⟩]).map
        RelevanceFactors.matchesCity = [some true]
    ∧ (calculateRelevanceFactors (eventView ⟨"Showcase", none, none⟩)
        ⟨none, some "Boston", none⟩ 1).matchesCity = some false := by
  decide

/-- C3 (amended): the relevance factors the transform attaches at 0-based
index `i` always agree with the core Factor Aggregator on position (which is
`i + 1`), on the keyword factor and on the classification factor; they equal
`calculateRelevanceFactors` of the extracted `EventData` view in full
whenever the record's venue city is present and non-empty or the city
criterion is absent/empty. -/
theorem transform_vs_core_amended (keyword city classificationName : Option String)
    (events : List TMEvent) (i : Nat) (hi : i < events.length) :
    ∃ f, (transformEvents keyword city classificationName events)[i]? = some f
      ∧ f.position = (i : Int) + 1
      ∧ f.hasKeywordMatch = hasKeywordMatch events[i].name keyword
      ∧ f.matchesClassification = matchesClassification events[i].segmentName classificationName
      ∧ ((strFalsy city = true ∨ ∃ s, events[i].venueCity = some s ∧ s.data.isEmpty = false) →
          f = calculateRelevanceFactors (eventView events[i])
            ⟨keyword, city, classificationName⟩ ((i : Int) + 1)) := by
  refine ⟨transformRelevanceFactors keyword city classificationName events[i] i,
    ?_, rfl, inlineHasKeywordMatch_eq _ _, inlineMatchesClassification_eq _ _, ?_⟩
  · have h := transformEventsFrom_getElem keyword city classificationName events 0 i hi
    simpa [transformEvents] using h
  · intro hcity
    have hmc := inlineMatchesCity_eq_of events[i].venueCity city hcity
    simp only [transformRelevanceFactors, calculateRelevanceFactors, eventView,
      inlineHasKeywordMatch_eq, inlineMatchesClassification_eq, hmc]

/-- Witness for C3 (amended): applies `transform_vs_core_amended` to a
one-record list whose venue city is present, discharging both hypotheses
and obtaining full agreement with the core at index 0. -/
theorem transform_vs_core_amended_witness :
    (transformEvents (some "rock") (some "Boston") (some "Music")
        [⟨"Rock Show", some "Boston", some "Music"⟩])[0]? =
      some (calculateRelevanceFactors (eventView ⟨"Rock Show", some "Boston", some "Music"⟩)
        ⟨some "rock", some "Boston", some "Music"⟩ (((0 : Nat) : Int) + 1)) := by
  obtain ⟨f, hget, -, -, -, hfull⟩ := transform_vs_core_amended (some "rock") (some "Boston")
    (some "Music") [⟨"Rock Show", some "Boston", some "Music"⟩] 0 (by decide)
  rw [hget, hfull (Or.inr ⟨"Boston", rfl, by decide⟩)]
  rfl

/-- C10: when the upstream record's venue city is absent or empty and the
city criterion is non-empty, the transform's inline computation reports
`matchesCity = true` (the search city contains the empty string) while the
core `matchesCity` evaluator returns `false`; the attached `true` value is
exactly what the score calculator rewards with the city bonus. -/
theorem missing_city_counts_as_match (venueCity : Option String) (c : String)
    (hc : c.data.isEmpty = false) (hvc : venueCity = none ∨ venueCity = some "") :
    inlineMatchesCity venueCity (some c) = some true
    ∧ matchesCity venueCity (some c) = some false
    ∧ ∀ (p : Int) (hk mc : Option Bool),
        calculateRelevanceScore ⟨p, hk, mc, inlineMatchesCity venueCity (some c)⟩
          = calculateRelevanceScore ⟨p, hk, mc, some true⟩ := by
  have he : ("" : String).data.isEmpty = true := rfl
  have hjl : jsToLower "" = "" := rfl
  have h1 : inlineMatchesCity venueCity (some c) = some true := by
    rcases hvc with rfl | rfl
    · simp [inlineMatchesCity, hc, jsOrEmpty, jsIncludes_empty_pat]
    · simp [inlineMatchesCity, hc, hjl, he, jsOrEmpty, jsIncludes_empty_pat]
  have h2 : matchesCity venueCity (some c) = some false := by
    rcases hvc with rfl | rfl
    · simp [matchesCity, hc]
    · simp [matchesCity, hc, he]
  exact ⟨h1, h2, fun p hk mc => by rw [h1]⟩

/-- Witness for C10: applies `missing_city_counts_as_match` with an absent
venue city and the concrete city criterion `"Boston"`. -/
theorem missing_city_counts_as_match_witness :
    ("Boston".data.isEmpty = false)
    ∧ inlineMatchesCity none (some "Boston") = some true
    ∧ matchesCity none (some "Boston") = some false :=
  ⟨by decide,
    (missing_city_counts_as_match none "Boston" (by decide) (Or.inl rfl)).1,
    (missing_city_counts_as_match none "Boston" (by decide) (Or.inl rfl)).2.1⟩

end EventFinder
